import Mathlib

/-!
# Pairing-code endpoint of `itxxwasi.js`

A shallow embedding of the `/code` route of `src/itxxwasi.js` (lines 89-157):
`generateRandomId`, the `connection.update` handler, the deferred pairing-code
callback and the text substitution applied to the raw pairing code.

The collaborators (clock, random source, file system, the Baileys socket and
the Express response object) are not part of the repository; what they return
is an explicit input (`Env`), and what the handler does to them is recorded as
a trace of `Effect`s.
-/

namespace Itxxwasi

/-! ## `generateRandomId` (lines 92-96) -/

/-- The JavaScript call `s.substring(2, 8)`: the characters at indices 2 to 7. -/
def substring_2_8 (s : String) : String :=
  String.mk ((s.data.drop 2).take 6)

/-- The function `generateRandomId`.
`timestamp` is the reading of `new Date().getTime()` (milliseconds since the
epoch, a natural number for every clock after 1970) and `randomBase36` is the
text `Math.random().toString(36)` of the random draw, e.g. `"0.k3j9x2m1p"`. -/
def generateRandomId (timestamp : Nat) (randomBase36 : String) : String :=
  let timestamp := toString timestamp
  let random := substring_2_8 randomBase36
  timestamp ++ "-" ++ random

/-- The identifiers returned by a sequence of calls of `generateRandomId`, one
clock reading and one random draw per call. -/
def generatedIds (calls : List (Nat × String)) : List String :=
  calls.map fun c => generateRandomId c.1 c.2

/-! ## `code.replace(/([0-9]{3})([0-9]{3})([0-9]{3})/, '$1-$2-$3')` (line 145) -/

/-- The regular expression `([0-9]{3})([0-9]{3})([0-9]{3})` anchored at the head
of `cs`: the three captured groups and the text after the match. -/
def matchNineDigits (cs : List Char) : Option (List Char × List Char × List Char × List Char) :=
  if (cs.take 9).length = 9 ∧ (cs.take 9).all Char.isDigit then
    some (cs.take 3, (cs.drop 3).take 3, (cs.drop 6).take 3, cs.drop 9)
  else
    none

/-- `String.prototype.replace` with the non-global pattern above and the
replacement `$1-$2-$3`: the leftmost match is rewritten, the rest of the text
is kept; without a match the text is returned unchanged. -/
def replaceFirst : List Char → List Char
  | [] => []
  | c :: cs =>
    match matchNineDigits (c :: cs) with
    | some (g1, g2, g3, rest) => g1 ++ '-' :: g2 ++ '-' :: g3 ++ rest
    | none => c :: replaceFirst cs

/-- The `code` field of the success response for a raw pairing code. -/
def formatCode (code : String) : String :=
  String.mk (replaceFirst code.data)

/-! ## The `connection.update` handler (lines 124-135) -/

/-- The `output` object of a Boom error; `statusCode` may be absent. A status
code that is not a number is never `===` to `DisconnectReason.loggedOut` and
so behaves like an absent one. -/
structure Output where
  statusCode : Option Int
  deriving DecidableEq, Repr

/-- The object `lastDisconnect.error`; its `output` may be absent. -/
structure DisconnectError where
  output : Option Output
  deriving DecidableEq, Repr

/-- The object `lastDisconnect`; its `error` may be absent. -/
structure LastDisconnect where
  error : Option DisconnectError
  deriving DecidableEq, Repr

/-- The argument of a `connection.update` event. Both fields are optional. -/
structure ConnectionUpdate where
  connection : Option String
  lastDisconnect : Option LastDisconnect
  deriving DecidableEq, Repr

/-- What the route does to its collaborators, in the order it does it. -/
inductive Effect where
  /-- Call `res.status(status).json(\x7b code \x7d)`; `res.json` alone is status 200. -/
  | respond (status : Nat) (code : String)
  /-- Call `generateRandomId()` -/
  | generateRandomId
  /-- Call `fs.existsSync(path)` -/
  | existsSync (path : String)
  /-- Call `fs.mkdirSync(path)` -/
  | mkdirSync (path : String)
  /-- Call `useMultiFileAuthState(sessionFile)` -/
  | useMultiFileAuthState (sessionFile : String)
  /-- Call `makeWASocket(...)` -/
  | makeWASocket
  /-- Call `socket.ev.on(event, ...)` -/
  | on (event : String)
  /-- Call `setTimeout(..., ms)` -/
  | setTimeout (ms : Nat)
  /-- Call `socket.requestPairingCode(phoneNumber)` -/
  | requestPairingCode (phoneNumber : String)
  /-- Call `fs.rm(path, \x7b recursive: true, force: true \x7d, ...)` -/
  | rm (path : String)
  /-- Call `saveCreds(...)` of the `creds.update` subscriber -/
  | saveCreds
  /-- Call `console.error(message, ...)` -/
  | consoleError (message : String)
  /-- An exception (or rejection) that no `catch` of the route handles. -/
  | uncaught (message : String)
  deriving DecidableEq, Repr

/-- The value of `(lastDisconnect.error)?.output?.statusCode` once
`lastDisconnect` is an object. -/
def statusCodeOf (lastDisconnect : LastDisconnect) : Option Int :=
  (lastDisconnect.error.bind fun e => e.output).bind fun o => o.statusCode

/-- The subscriber of `connection.update`. `loggedOut` is the library constant
`DisconnectReason.loggedOut`. The result is the list of effects of a normal
return, or the exception the subscriber throws: reading `.error` of an absent
`lastDisconnect` is a `TypeError`. The callback passed to `fs.rm` only logs. -/
def onConnectionUpdate (loggedOut : Int) (sessionFile : String) (update : ConnectionUpdate) :
    Except String (List Effect) :=
  if update.connection = some "close" then
    match update.lastDisconnect with
    | none => .error "TypeError: Cannot read properties of undefined (reading 'error')"
    | some lastDisconnect =>
      let shouldReconnect : Bool := statusCodeOf lastDisconnect != some loggedOut
      if !shouldReconnect then
        .ok [Effect.rm sessionFile]
      else
        .ok []
  else
    .ok []

/-! ## The route `GET /code` (lines 99-157) -/

/-- The request: `req.query.number`, absent or a text. -/
structure Request where
  number : Option String
  deriving DecidableEq, Repr

/-- What the collaborators answer during one request. -/
structure Env where
  /-- Reading of `new Date().getTime()` -/
  timestamp : Nat
  /-- Text `Math.random().toString(36)` of the random draw -/
  randomBase36 : String
  /-- Answer of `fs.existsSync('./temp')` -/
  tempExists : Bool
  /-- whether `fs.mkdirSync('./temp')` throws -/
  mkdirThrows : Bool
  /-- Outcome of `useMultiFileAuthState`: `none` when it rejects, otherwise the value of
  `creds.registered` of the opened state -/
  authState : Option Bool
  /-- whether `makeWASocket` throws -/
  socketThrows : Bool
  /-- Outcome of `socket.requestPairingCode`: `none` when it rejects, otherwise the raw code -/
  pairingCode : Option String
  /-- Library constant `DisconnectReason.loggedOut` -/
  loggedOut : Int
  deriving DecidableEq, Repr

/-- A set-up session: what the closures of the route capture. -/
structure Session where
  sessionFile : String
  phoneNumber : String
  /-- whether the three-second timer was armed -/
  timerArmed : Bool
  deriving DecidableEq, Repr

/-- An event emitted by the socket. -/
inductive Event where
  | connectionUpdate (update : ConnectionUpdate)
  | credsUpdate
  deriving DecidableEq, Repr

/-- The body of the route up to the end of its `try` block: the effects, and
the session when the socket was made and the subscribers registered. -/
def startPairing (env : Env) (req : Request) : List Effect × Option Session :=
  match req.number with
  | none => ([Effect.respond 400 "Phone number is required"], none)
  | some phoneNumber =>
    if phoneNumber = "" then
      ([Effect.respond 400 "Phone number is required"], none)
    else
      let sessionId := generateRandomId env.timestamp env.randomBase36
      let sessionFile := "./temp/" ++ sessionId
      let pre := [Effect.generateRandomId, Effect.existsSync "./temp"]
      if !env.tempExists && env.mkdirThrows then
        (pre ++ [Effect.mkdirSync "./temp", Effect.uncaught "mkdirSync"], none)
      else
        let pre := if !env.tempExists then pre ++ [Effect.mkdirSync "./temp"] else pre
        match env.authState with
        | none =>
          (pre ++ [Effect.useMultiFileAuthState sessionFile,
            Effect.consoleError "Error setting up WhatsApp socket:",
            Effect.respond 500 "Internal Server Error"], none)
        | some registered =>
          if env.socketThrows then
            (pre ++ [Effect.useMultiFileAuthState sessionFile, Effect.makeWASocket,
              Effect.consoleError "Error setting up WhatsApp socket:",
              Effect.respond 500 "Internal Server Error"], none)
          else
            let setup := pre ++ [Effect.useMultiFileAuthState sessionFile, Effect.makeWASocket,
              Effect.on "connection.update", Effect.on "creds.update"]
            if !registered then
              (setup ++ [Effect.setTimeout 3000], some ⟨sessionFile, phoneNumber, true⟩)
            else
              (setup, some ⟨sessionFile, phoneNumber, false⟩)

/-- Delivery of one socket event to the subscribers of a session. An exception
of the `connection.update` subscriber escapes to the emitter. -/
def dispatch (loggedOut : Int) (s : Session) : Event → List Effect
  | .connectionUpdate update =>
    match onConnectionUpdate loggedOut s.sessionFile update with
    | .ok effects => effects
    | .error message => [Effect.uncaught message]
  | .credsUpdate => [Effect.saveCreds]

/-- Delivery of a sequence of socket events. -/
def dispatchAll (loggedOut : Int) (s : Session) (events : List Event) : List Effect :=
  events.flatMap (dispatch loggedOut s)

/-- The timer callback up to its `await` (line 144). -/
def deferredCall (s : Session) : List Effect :=
  [Effect.requestPairingCode s.phoneNumber]

/-- The timer callback after its `await` (lines 145-149). -/
def deferredSettle (env : Env) : List Effect :=
  match env.pairingCode with
  | some code => [Effect.respond 200 (formatCode code)]
  | none =>
    [Effect.consoleError "Failed to request pairing code:",
     Effect.respond 500 "Failed to generate pairing code"]

/-- The complete run of one request: the route body, the socket events that
arrive before the timer fires (`before`), the timer callback with the events
that arrive while `requestPairingCode` is pending (`during`), and the events
that arrive afterwards (`after`). Without a session no subscriber exists and
no event is delivered; without an armed timer all events are just delivered. -/
def run (env : Env) (req : Request) (before during after : List Event) : List Effect :=
  match startPairing env req with
  | (effects, none) => effects
  | (effects, some s) =>
    effects ++ dispatchAll env.loggedOut s before ++
      (if s.timerArmed then
        deferredCall s ++ dispatchAll env.loggedOut s during ++ deferredSettle env
      else
        dispatchAll env.loggedOut s during) ++
      dispatchAll env.loggedOut s after

/-- The responses sent during a run, in order. -/
def responses : List Effect → List (Nat × String)
  | [] => []
  | Effect.respond status code :: es => (status, code) :: responses es
  | _ :: es => responses es

/-- The pairing-code requests issued during a run, in order. -/
def pairingRequests : List Effect → List String
  | [] => []
  | Effect.requestPairingCode phoneNumber :: es => phoneNumber :: pairingRequests es
  | _ :: es => pairingRequests es

/-- The directories removed during a run, in order. -/
def removals : List Effect → List String
  | [] => []
  | Effect.rm path :: es => path :: removals es
  | _ :: es => removals es

/-- The disconnect cause `lastDisconnect.error.output.statusCode` of an update,
read off the fields of the event: present only when `lastDisconnect`, its
`error`, the error's `output` and the output's `statusCode` are all present. -/
def disconnectCause (update : ConnectionUpdate) : Option Int :=
  match update.lastDisconnect with
  | some ⟨some ⟨some ⟨some statusCode⟩⟩⟩ => some statusCode
  | _ => none

/-- A `connection.update` event with `connection = 'close'` whose disconnect
cause is `DisconnectReason.loggedOut`. -/
def isLogoutClose (loggedOut : Int) : Event → Prop
  | .connectionUpdate update =>
    update.connection = some "close" ∧ disconnectCause update = some loggedOut
  | .credsUpdate => False

instance (loggedOut : Int) : DecidablePred (isLogoutClose loggedOut) := fun e => by
  cases e <;> unfold isLogoutClose <;> infer_instance

/-- Three blocks of three characters joined by hyphens. -/
def hyphenate (code : String) : String :=
  String.mk (code.data.take 3 ++ '-' :: (code.data.drop 3).take 3 ++ '-' :: code.data.drop 6)

/-! ## Traces -/

theorem disconnectCause_eq_bind (update : ConnectionUpdate) :
    disconnectCause update = update.lastDisconnect.bind statusCodeOf := by
  obtain ⟨connection, lastDisconnect⟩ := update
  rcases lastDisconnect with _ | ⟨_ | ⟨_ | ⟨_ | statusCode⟩⟩⟩ <;> rfl

theorem responses_append (xs ys : List Effect) :
    responses (xs ++ ys) = responses xs ++ responses ys := by
  induction xs with
  | nil => rfl
  | cons x xs ih => cases x <;> simp [responses, ih]

theorem pairingRequests_append (xs ys : List Effect) :
    pairingRequests (xs ++ ys) = pairingRequests xs ++ pairingRequests ys := by
  induction xs with
  | nil => rfl
  | cons x xs ih => cases x <;> simp [pairingRequests, ih]

theorem removals_append (xs ys : List Effect) :
    removals (xs ++ ys) = removals xs ++ removals ys := by
  induction xs with
  | nil => rfl
  | cons x xs ih => cases x <;> simp [removals, ih]

/-- The effects of one delivered event: nothing, a removal of the session
directory, a credential save or an escaped exception. -/
theorem dispatch_cases (loggedOut : Int) (s : Session) (e : Event) :
    dispatch loggedOut s e = [] ∨ dispatch loggedOut s e = [Effect.rm s.sessionFile] ∨
      dispatch loggedOut s e = [Effect.saveCreds] ∨
      ∃ message, dispatch loggedOut s e = [Effect.uncaught message] := by
  cases e with
  | credsUpdate => simp [dispatch]
  | connectionUpdate update =>
    simp only [dispatch, onConnectionUpdate]
    split_ifs with h
    · cases hl : update.lastDisconnect with
      | none => simp
      | some ld => by_cases hs : statusCodeOf ld = some loggedOut <;> simp [hs]
    · simp

theorem responses_dispatch (loggedOut : Int) (s : Session) (e : Event) :
    responses (dispatch loggedOut s e) = [] := by
  rcases dispatch_cases loggedOut s e with h | h | h | ⟨m, h⟩ <;> simp [h, responses]

theorem pairingRequests_dispatch (loggedOut : Int) (s : Session) (e : Event) :
    pairingRequests (dispatch loggedOut s e) = [] := by
  rcases dispatch_cases loggedOut s e with h | h | h | ⟨m, h⟩ <;> simp [h, pairingRequests]

theorem responses_dispatchAll (loggedOut : Int) (s : Session) (events : List Event) :
    responses (dispatchAll loggedOut s events) = [] := by
  induction events with
  | nil => rfl
  | cons e es ih =>
    have : dispatchAll loggedOut s (e :: es) =
        dispatch loggedOut s e ++ dispatchAll loggedOut s es := by
      simp [dispatchAll]
    rw [this, responses_append, responses_dispatch, ih]; rfl

theorem pairingRequests_dispatchAll (loggedOut : Int) (s : Session) (events : List Event) :
    pairingRequests (dispatchAll loggedOut s events) = [] := by
  induction events with
  | nil => rfl
  | cons e es ih =>
    have : dispatchAll loggedOut s (e :: es) =
        dispatch loggedOut s e ++ dispatchAll loggedOut s es := by
      simp [dispatchAll]
    rw [this, pairingRequests_append, pairingRequests_dispatch, ih]; rfl

/-- Removals of one delivered event. -/
theorem removals_dispatch (loggedOut : Int) (s : Session) (e : Event) :
    removals (dispatch loggedOut s e) =
      if isLogoutClose loggedOut e then [s.sessionFile] else [] := by
  cases e with
  | credsUpdate => simp [dispatch, isLogoutClose, removals]
  | connectionUpdate update =>
    obtain ⟨connection, lastDisconnect⟩ := update
    simp only [dispatch, onConnectionUpdate, isLogoutClose, disconnectCause_eq_bind]
    by_cases h : connection = some "close"
    · cases lastDisconnect with
      | none => simp [h, removals]
      | some ld => by_cases hs : statusCodeOf ld = some loggedOut <;> simp [h, hs, removals]
    · simp [h, removals]

theorem removals_dispatchAll (loggedOut : Int) (s : Session) (events : List Event)
    (h : ∀ e ∈ events, ¬ isLogoutClose loggedOut e) :
    removals (dispatchAll loggedOut s events) = [] := by
  induction events with
  | nil => rfl
  | cons e es ih =>
    have : dispatchAll loggedOut s (e :: es) =
        dispatch loggedOut s e ++ dispatchAll loggedOut s es := by
      simp [dispatchAll]
    rw [this, removals_append, removals_dispatch, ih (fun x hx => h x (List.mem_cons_of_mem _ hx))]
    simp [h e (List.mem_cons_self _ _)]

/-- The run of a request that reaches the `try` block, opens unregistered
credentials and makes the socket. -/
theorem run_unregistered (env : Env) (req : Request) (phoneNumber : String)
    (before during after : List Event)
    (hnum : req.number = some phoneNumber) (hne : phoneNumber ≠ "")
    (hdir : env.tempExists = true ∨ env.mkdirThrows = false)
    (hauth : env.authState = some false) (hsock : env.socketThrows = false) :
    ∃ setup s, responses setup = [] ∧ pairingRequests setup = [] ∧ removals setup = [] ∧
      s.phoneNumber = phoneNumber ∧
      run env req before during after =
        setup ++ dispatchAll env.loggedOut s before ++
          (deferredCall s ++ dispatchAll env.loggedOut s during ++ deferredSettle env) ++
          dispatchAll env.loggedOut s after := by
  obtain ⟨number⟩ := req
  subst hnum
  by_cases ht : env.tempExists = true
  · refine ⟨[Effect.generateRandomId, Effect.existsSync "./temp",
        Effect.useMultiFileAuthState ("./temp/" ++ generateRandomId env.timestamp env.randomBase36),
        Effect.makeWASocket, Effect.on "connection.update", Effect.on "creds.update",
        Effect.setTimeout 3000],
      ⟨"./temp/" ++ generateRandomId env.timestamp env.randomBase36, phoneNumber, true⟩,
      by simp [responses], by simp [pairingRequests], by simp [removals], rfl, ?_⟩
    simp [run, startPairing, hne, hauth, hsock, ht]
  · have hm : env.mkdirThrows = false := by
      rcases hdir with h | h
      · exact absurd h ht
      · exact h
    refine ⟨[Effect.generateRandomId, Effect.existsSync "./temp", Effect.mkdirSync "./temp",
        Effect.useMultiFileAuthState ("./temp/" ++ generateRandomId env.timestamp env.randomBase36),
        Effect.makeWASocket, Effect.on "connection.update", Effect.on "creds.update",
        Effect.setTimeout 3000],
      ⟨"./temp/" ++ generateRandomId env.timestamp env.randomBase36, phoneNumber, true⟩,
      by simp [responses], by simp [pairingRequests], by simp [removals], rfl, ?_⟩
    simp [run, startPairing, hne, hauth, hsock, ht, hm]

/-- The run of a request that reaches the `try` block, opens registered
credentials and makes the socket. -/
theorem run_registered (env : Env) (req : Request) (phoneNumber : String)
    (before during after : List Event)
    (hnum : req.number = some phoneNumber) (hne : phoneNumber ≠ "")
    (hdir : env.tempExists = true ∨ env.mkdirThrows = false)
    (hauth : env.authState = some true) (hsock : env.socketThrows = false) :
    ∃ setup s, responses setup = [] ∧ pairingRequests setup = [] ∧
      run env req before during after =
        setup ++ dispatchAll env.loggedOut s before ++ dispatchAll env.loggedOut s during ++
          dispatchAll env.loggedOut s after := by
  obtain ⟨number⟩ := req
  subst hnum
  by_cases ht : env.tempExists = true
  · refine ⟨[Effect.generateRandomId, Effect.existsSync "./temp",
        Effect.useMultiFileAuthState ("./temp/" ++ generateRandomId env.timestamp env.randomBase36),
        Effect.makeWASocket, Effect.on "connection.update", Effect.on "creds.update"],
      ⟨"./temp/" ++ generateRandomId env.timestamp env.randomBase36, phoneNumber, false⟩,
      by simp [responses], by simp [pairingRequests], ?_⟩
    simp [run, startPairing, hne, hauth, hsock, ht]
  · have hm : env.mkdirThrows = false := by
      rcases hdir with h | h
      · exact absurd h ht
      · exact h
    refine ⟨[Effect.generateRandomId, Effect.existsSync "./temp", Effect.mkdirSync "./temp",
        Effect.useMultiFileAuthState ("./temp/" ++ generateRandomId env.timestamp env.randomBase36),
        Effect.makeWASocket, Effect.on "connection.update", Effect.on "creds.update"],
      ⟨"./temp/" ++ generateRandomId env.timestamp env.randomBase36, phoneNumber, false⟩,
      by simp [responses], by simp [pairingRequests], ?_⟩
    simp [run, startPairing, hne, hauth, hsock, ht, hm]

/-- The session directory captured by the subscribers is `./temp/<sessionId>`. -/
theorem startPairing_sessionFile (env : Env) (req : Request) (effects : List Effect) (s : Session)
    (h : startPairing env req = (effects, some s)) :
    s.sessionFile = "./temp/" ++ generateRandomId env.timestamp env.randomBase36 := by
  obtain ⟨number⟩ := req
  simp only [startPairing] at h
  split at h
  · simp at h
  · split_ifs at h <;> first
      | (simp at h; done)
      | (split at h <;> first
          | (simp at h; done)
          | (split_ifs at h <;> first
              | (simp at h; done)
              | (simp only [Prod.mk.injEq, Option.some.injEq] at h; rw [← h.2])))

/-- No run sends more than one response. -/
theorem responses_run_length_le_one (env : Env) (req : Request) (before during after : List Event) :
    (responses (run env req before during after)).length ≤ 1 := by
  obtain ⟨number⟩ := req
  cases number with
  | none => simp [run, startPairing, responses]
  | some phoneNumber =>
    by_cases hne : phoneNumber = ""
    · simp [run, startPairing, hne, responses]
    · by_cases hd : env.tempExists = true ∨ env.mkdirThrows = false
      · cases hauth : env.authState with
        | none =>
          rcases hd with h | h <;> by_cases ht : env.tempExists = true <;>
            simp [run, startPairing, hne, hauth, h, ht, responses]
        | some registered =>
          by_cases hsock : env.socketThrows = true
          · rcases hd with h | h <;> by_cases ht : env.tempExists = true <;>
              simp [run, startPairing, hne, hauth, hsock, h, ht, responses]
          · have hsock : env.socketThrows = false := by simpa using hsock
            cases registered with
            | true =>
              obtain ⟨setup, s, h1, -, hrun⟩ :=
                run_registered env ⟨some phoneNumber⟩ phoneNumber before during after rfl hne hd
                  hauth hsock
              simp [hrun, responses_append, responses_dispatchAll, h1]
            | false =>
              obtain ⟨setup, s, h1, -, -, -, hrun⟩ :=
                run_unregistered env ⟨some phoneNumber⟩ phoneNumber before during after rfl hne hd
                  hauth hsock
              rw [hrun]
              simp only [responses_append, responses_dispatchAll, h1, deferredCall, deferredSettle]
              cases env.pairingCode <;> simp [responses]
      · have ht : env.tempExists = false := by
          by_contra hc; exact hd (Or.inl (by simpa using hc))
        have hm : env.mkdirThrows = true := by
          by_contra hc; exact hd (Or.inr (by simpa using hc))
        simp [run, startPairing, hne, ht, hm, responses]

/-! ## Decimal rendering of the clock reading -/

/-- The value of a decimal text, read from the left with accumulator `acc`. -/
def decimalValue (acc : Nat) (cs : List Char) : Nat :=
  cs.foldl (fun a c => 10 * a + (c.toNat - 48)) acc

theorem digitChar_value (k : Nat) (hk : k < 10) : (Nat.digitChar k).toNat - 48 = k := by
  interval_cases k <;> rfl

theorem digitChar_ne_hyphen (k : Nat) (hk : k < 10) : Nat.digitChar k ≠ '-' := by
  interval_cases k <;> decide

theorem decimalValue_toDigitsCore (fuel : Nat) :
    ∀ (n : Nat) (ds : List Char), n < fuel →
      decimalValue 0 (Nat.toDigitsCore 10 fuel n ds) = decimalValue n ds := by
  induction fuel with
  | zero => intro n ds h; omega
  | succ fuel ih =>
    intro n ds h
    have hmod : (Nat.digitChar (n % 10)).toNat - 48 = n % 10 :=
      digitChar_value _ (Nat.mod_lt _ (by decide))
    simp only [Nat.toDigitsCore]
    split_ifs with h0
    · have hn : n % 10 = n := Nat.mod_eq_of_lt (by omega)
      simp only [decimalValue, List.foldl_cons, Nat.mul_zero, Nat.zero_add]
      rw [hmod, hn]
    · rw [ih (n / 10) _ (by omega)]
      simp only [decimalValue, List.foldl_cons, hmod]
      congr 1
      omega

theorem toDigitsCore_no_hyphen (fuel : Nat) :
    ∀ (n : Nat) (ds : List Char), '-' ∉ ds → '-' ∉ Nat.toDigitsCore 10 fuel n ds := by
  induction fuel with
  | zero => intro n ds h; simpa [Nat.toDigitsCore] using h
  | succ fuel ih =>
    intro n ds h
    have hd : Nat.digitChar (n % 10) ≠ '-' := digitChar_ne_hyphen _ (Nat.mod_lt _ (by decide))
    have hcons : '-' ∉ Nat.digitChar (n % 10) :: ds := by
      simp only [List.mem_cons, not_or]
      exact ⟨fun h' => hd h'.symm, h⟩
    simp only [Nat.toDigitsCore]
    split_ifs with h0
    · exact hcons
    · exact ih _ _ hcons

theorem toDigits_injective : Function.Injective (Nat.toDigits 10) := by
  intro a b h
  have ha := decimalValue_toDigitsCore (a + 1) a [] (by omega)
  have hb := decimalValue_toDigitsCore (b + 1) b [] (by omega)
  simp only [Nat.toDigits] at h
  rw [h, hb] at ha
  simpa [decimalValue] using ha.symm

theorem toDigits_no_hyphen (n : Nat) : '-' ∉ Nat.toDigits 10 n :=
  toDigitsCore_no_hyphen _ _ _ (by simp)

/-- Two texts cut at their first hyphen are equal only if both halves are. -/
theorem append_hyphen_inj :
    ∀ (a b x y : List Char), '-' ∉ a → '-' ∉ b → a ++ '-' :: x = b ++ '-' :: y → a = b ∧ x = y := by
  intro a
  induction a with
  | nil =>
    intro b x y _ hb h
    cases b with
    | nil => simpa using h
    | cons c cs =>
      simp only [List.nil_append, List.cons_append, List.cons.injEq] at h
      exact absurd (h.1 ▸ List.mem_cons_self _ _) hb
  | cons c cs ih =>
    intro b x y ha hb h
    cases b with
    | nil =>
      simp only [List.nil_append, List.cons_append, List.cons.injEq] at h
      exact absurd (h.1 ▸ List.mem_cons_self _ _) ha
    | cons d ds =>
      simp only [List.cons_append, List.cons.injEq] at h
      obtain ⟨rfl, hrest⟩ := h
      have := ih ds x y (fun m => ha (List.mem_cons_of_mem _ m))
        (fun m => hb (List.mem_cons_of_mem _ m)) hrest
      exact ⟨by rw [this.1], this.2⟩

theorem generateRandomId_data (timestamp : Nat) (randomBase36 : String) :
    (generateRandomId timestamp randomBase36).data =
      Nat.toDigits 10 timestamp ++ '-' :: (substring_2_8 randomBase36).data := by
  simp [generateRandomId]
  rfl

theorem generateRandomId_eq_iff (t1 t2 : Nat) (r1 r2 : String) :
    generateRandomId t1 r1 = generateRandomId t2 r2 ↔
      t1 = t2 ∧ substring_2_8 r1 = substring_2_8 r2 := by
  constructor
  · intro h
    have hd := congrArg String.data h
    rw [generateRandomId_data, generateRandomId_data] at hd
    obtain ⟨h1, h2⟩ := append_hyphen_inj _ _ _ _ (toDigits_no_hyphen t1) (toDigits_no_hyphen t2) hd
    exact ⟨toDigits_injective h1, String.ext h2⟩
  · rintro ⟨rfl, h⟩
    simp [generateRandomId, h]

/-! ## The substitution on short and on nine-character codes -/

theorem matchNineDigits_short (cs : List Char) (h : cs.length < 9) : matchNineDigits cs = none := by
  have : (cs.take 9).length ≠ 9 := by
    rw [List.length_take]; omega
  simp only [matchNineDigits, this, false_and, if_false]

theorem replaceFirst_short : ∀ (cs : List Char), cs.length < 9 → replaceFirst cs = cs := by
  intro cs
  induction cs with
  | nil => intro _; rfl
  | cons c cs ih =>
    intro h
    have hlen : cs.length < 9 := by simp only [List.length_cons] at h; omega
    rw [replaceFirst, matchNineDigits_short _ h]
    simp [ih hlen]

theorem replaceFirst_nine (cs : List Char) (h : cs.length = 9) :
    replaceFirst cs =
      if cs.all Char.isDigit then
        cs.take 3 ++ '-' :: (cs.drop 3).take 3 ++ '-' :: cs.drop 6
      else cs := by
  have htake : cs.take 9 = cs := List.take_of_length_le (by omega)
  cases cs with
  | nil => simp at h
  | cons c cs =>
    have hlen : cs.length < 9 := by simp only [List.length_cons] at h; omega
    have hdrop : (c :: cs).drop 9 = [] := List.drop_of_length_le (by omega)
    have h3 : ((c :: cs).drop 6).take 3 = (c :: cs).drop 6 :=
      List.take_of_length_le (by rw [List.length_drop]; omega)
    rw [replaceFirst]
    by_cases hall : (c :: cs).all Char.isDigit = true
    · have hm : matchNineDigits (c :: cs) = some ((c :: cs).take 3, ((c :: cs).drop 3).take 3,
          ((c :: cs).drop 6).take 3, (c :: cs).drop 9) := by
        simp only [matchNineDigits, htake, h, hall, and_self, if_true]
      rw [hm, if_pos hall, hdrop, h3]
      simp
    · have hm : matchNineDigits (c :: cs) = none := by
        simp only [matchNineDigits, htake, h, hall, and_false, if_false]
        simp
      rw [hm, if_neg hall]
      simp [replaceFirst_short cs hlen]

theorem formatCode_nine (code : String) (h : code.length = 9) :
    formatCode code = if code.data.all Char.isDigit then hyphenate code else code := by
  have h9 : code.data.length = 9 := h
  simp only [formatCode, hyphenate, replaceFirst_nine _ h9]
  split_ifs <;> rfl

theorem mem_responses (status : Nat) (code : String) :
    ∀ (xs : List Effect), Effect.respond status code ∈ xs → (status, code) ∈ responses xs := by
  intro xs
  induction xs with
  | nil => intro h; simp at h
  | cons x xs ih =>
    intro h
    rcases List.mem_cons.mp h with hx | hx
    · subst hx
      simp [responses]
    · have := ih hx
      cases x <;> simp [responses, this]

/-! ## The claims -/

/-- C1 (fails on the code): with a non-empty phone number, storage that opens,
a socket that is made and credentials that are already registered, the complete
run of the route, whatever events arrive, sends no response at all. -/
theorem C1_registered_run_sends_no_response (before during after : List Event) :
    responses (run ⟨1700000000000, "0.k3j9x2m1p", true, false, some true, false,
      some "123456789", 401⟩ ⟨some "15551234567"⟩ before during after) = [] := by
  obtain ⟨setup, s, h1, -, hrun⟩ :=
    run_registered ⟨1700000000000, "0.k3j9x2m1p", true, false, some true, false,
      some "123456789", 401⟩ ⟨some "15551234567"⟩ "15551234567" before during after rfl
      (by decide) (Or.inl rfl) rfl rfl
  rw [hrun]
  simp [responses_append, responses_dispatchAll, h1]

/-- C2: for the session set up by the route, a delivered `connection.update`
whose `connection` is `close` and whose `lastDisconnect.error.output.statusCode`
is present and equal to `DisconnectReason.loggedOut` has the single effect of
removing `./temp/<sessionId>`; every other update (another status code, an
absent `statusCode`, `output`, `error` or `lastDisconnect`, or a `connection`
other than `close`) removes nothing. -/
theorem C2_session_directory_removed_iff_logged_out (env : Env) (req : Request)
    (effects : List Effect) (s : Session) (update : ConnectionUpdate)
    (h : startPairing env req = (effects, some s)) :
    (update.connection = some "close" ∧
        update.lastDisconnect = some ⟨some ⟨some ⟨some env.loggedOut⟩⟩⟩ →
      dispatch env.loggedOut s (.connectionUpdate update) =
        [Effect.rm ("./temp/" ++ generateRandomId env.timestamp env.randomBase36)]) ∧
    (¬ (update.connection = some "close" ∧
        update.lastDisconnect = some ⟨some ⟨some ⟨some env.loggedOut⟩⟩⟩) →
      removals (dispatch env.loggedOut s (.connectionUpdate update)) = []) := by
  have hs : s.sessionFile = "./temp/" ++ generateRandomId env.timestamp env.randomBase36 :=
    startPairing_sessionFile env req effects s h
  obtain ⟨connection, lastDisconnect⟩ := update
  constructor
  · rintro ⟨hc, hl⟩
    simp only at hc hl
    subst hc hl
    simp [dispatch, onConnectionUpdate, statusCodeOf, hs]
  · intro hn
    rw [removals_dispatch, if_neg]
    intro hlog
    apply hn
    obtain ⟨hc, hcause⟩ := hlog
    refine ⟨hc, ?_⟩
    simp only at hcause ⊢
    rcases lastDisconnect with _ | ⟨_ | ⟨_ | ⟨_ | statusCode⟩⟩⟩ <;>
      simp [disconnectCause] at hcause ⊢
    exact hcause

/-- Witness of C2: a logged-out close (status 401) delivered to the session the
route sets up for clock reading 17 and draw `0.k3j9x2m1p`. -/
theorem C2_session_directory_removed_iff_logged_out_witness :
    startPairing ⟨17, "0.k3j9x2m1p", true, false, some false, false, some "123456789", 401⟩
        ⟨some "15551234567"⟩ =
      ([Effect.generateRandomId, Effect.existsSync "./temp",
        Effect.useMultiFileAuthState "./temp/17-k3j9x2", Effect.makeWASocket,
        Effect.on "connection.update", Effect.on "creds.update", Effect.setTimeout 3000],
        some ⟨"./temp/17-k3j9x2", "15551234567", true⟩) ∧
      dispatch 401 ⟨"./temp/17-k3j9x2", "15551234567", true⟩
        (.connectionUpdate ⟨some "close", some ⟨some ⟨some ⟨some 401⟩⟩⟩⟩) =
      [Effect.rm ("./temp/" ++ generateRandomId 17 "0.k3j9x2m1p")] :=
  ⟨by decide, (C2_session_directory_removed_iff_logged_out
    ⟨17, "0.k3j9x2m1p", true, false, some false, false, some "123456789", 401⟩
    ⟨some "15551234567"⟩
    [Effect.generateRandomId, Effect.existsSync "./temp",
      Effect.useMultiFileAuthState "./temp/17-k3j9x2", Effect.makeWASocket,
      Effect.on "connection.update", Effect.on "creds.update", Effect.setTimeout 3000]
    ⟨"./temp/17-k3j9x2", "15551234567", true⟩
    ⟨some "close", some ⟨some ⟨some ⟨some 401⟩⟩⟩⟩ (by decide)).1 ⟨rfl, rfl⟩⟩

/-- C3 (fails on the code): when the opened credentials are already registered,
`requestPairingCode` is never called, and the caller is sent no response at all:
no distinct AlreadyRegistered outcome exists. -/
theorem C3_registered_no_request_and_no_answer (env : Env) (req : Request) (phoneNumber : String)
    (before during after : List Event)
    (hnum : req.number = some phoneNumber) (hne : phoneNumber ≠ "")
    (hdir : env.tempExists = true ∨ env.mkdirThrows = false)
    (hauth : env.authState = some true) (hsock : env.socketThrows = false) :
    pairingRequests (run env req before during after) = [] ∧
      responses (run env req before during after) = [] := by
  obtain ⟨setup, s, h1, h2, hrun⟩ :=
    run_registered env req phoneNumber before during after hnum hne hdir hauth hsock
  rw [hrun]
  simp [responses_append, responses_dispatchAll, pairingRequests_append,
    pairingRequests_dispatchAll, h1, h2]

/-- Witness of C3: registered credentials, `./temp` made by the request. -/
theorem C3_registered_no_request_and_no_answer_witness :
    pairingRequests (run ⟨1700000000123, "0.4fzyo82mvyr", false, false, some true, false,
        some "987654321", 401⟩ ⟨some "447700900123"⟩
        [.connectionUpdate ⟨some "open", none⟩] [] [.credsUpdate]) = [] ∧
      responses (run ⟨1700000000123, "0.4fzyo82mvyr", false, false, some true, false,
        some "987654321", 401⟩ ⟨some "447700900123"⟩
        [.connectionUpdate ⟨some "open", none⟩] [] [.credsUpdate]) = [] :=
  C3_registered_no_request_and_no_answer _ _ "447700900123" _ _ _ rfl (by decide) (Or.inr rfl)
    rfl rfl

/-- C4 as stated is false: after a close with status 408 before the timer
fires, the timer callback still calls `requestPairingCode` and the caller gets
the formatted code with status 200, not an error. -/
theorem C4_counterexample :
    ¬ (pairingRequests (run ⟨1700000000000, "0.k3j9x2m1p", true, false, some false, false,
          some "123456789", 401⟩ ⟨some "15551234567"⟩
          [.connectionUpdate ⟨some "close", some ⟨some ⟨some ⟨some 408⟩⟩⟩⟩] [] []) = [] ∧
        (∃ message, responses (run ⟨1700000000000, "0.k3j9x2m1p", true, false, some false, false,
          some "123456789", 401⟩ ⟨some "15551234567"⟩
          [.connectionUpdate ⟨some "close", some ⟨some ⟨some ⟨some 408⟩⟩⟩⟩] [] []) =
            [(500, message)]) ∧
        removals (run ⟨1700000000000, "0.k3j9x2m1p", true, false, some false, false,
          some "123456789", 401⟩ ⟨some "15551234567"⟩
          [.connectionUpdate ⟨some "close", some ⟨some ⟨some ⟨some 408⟩⟩⟩⟩] [] []) = []) := by
  intro h
  exact absurd h.1 (by decide)

/-- C4 (amended): for a session with unregistered credentials in which no
delivered event is a logged-out close (so every close, before or after the
timer fires, has another cause), the session directory is never removed, the
timer callback calls `requestPairingCode` exactly once with the phone number,
and the single response is the outcome of that call: status 200 with the
formatted code, or status 500 `Failed to generate pairing code`. -/
theorem C4_non_logout_close_keeps_directory_and_still_requests (env : Env) (req : Request)
    (phoneNumber : String) (before during after : List Event)
    (hnum : req.number = some phoneNumber) (hne : phoneNumber ≠ "")
    (hdir : env.tempExists = true ∨ env.mkdirThrows = false)
    (hauth : env.authState = some false) (hsock : env.socketThrows = false)
    (hev : ∀ e ∈ before ++ during ++ after, ¬ isLogoutClose env.loggedOut e) :
    removals (run env req before during after) = [] ∧
      pairingRequests (run env req before during after) = [phoneNumber] ∧
      responses (run env req before during after) =
        [match env.pairingCode with
          | some code => (200, formatCode code)
          | none => (500, "Failed to generate pairing code")] := by
  obtain ⟨setup, s, h1, h2, h3, hs, hrun⟩ :=
    run_unregistered env req phoneNumber before during after hnum hne hdir hauth hsock
  have hb := removals_dispatchAll env.loggedOut s before (fun e he => hev e (by simp [he]))
  have hd := removals_dispatchAll env.loggedOut s during (fun e he => hev e (by simp [he]))
  have ha := removals_dispatchAll env.loggedOut s after (fun e he => hev e (by simp [he]))
  rw [hrun]
  simp only [responses_append, responses_dispatchAll, pairingRequests_append,
    pairingRequests_dispatchAll, removals_append, h1, h2, h3, hb, hd, ha, deferredCall,
    deferredSettle, hs]
  cases env.pairingCode <;> simp [responses, pairingRequests, removals]

/-- Witness of C4 (amended): a close with status 408 before the timer fires. -/
theorem C4_non_logout_close_keeps_directory_and_still_requests_witness :
    removals (run ⟨1700000000000, "0.k3j9x2m1p", true, false, some false, false,
        some "123456789", 401⟩ ⟨some "15551234567"⟩
        [.connectionUpdate ⟨some "close", some ⟨some ⟨some ⟨some 408⟩⟩⟩⟩] [] []) = [] ∧
      pairingRequests (run ⟨1700000000000, "0.k3j9x2m1p", true, false, some false, false,
        some "123456789", 401⟩ ⟨some "15551234567"⟩
        [.connectionUpdate ⟨some "close", some ⟨some ⟨some ⟨some 408⟩⟩⟩⟩] [] []) =
          ["15551234567"] ∧
      responses (run ⟨1700000000000, "0.k3j9x2m1p", true, false, some false, false,
        some "123456789", 401⟩ ⟨some "15551234567"⟩
        [.connectionUpdate ⟨some "close", some ⟨some ⟨some ⟨some 408⟩⟩⟩⟩] [] []) =
          [(200, "123-456-789")] :=
  C4_non_logout_close_keeps_directory_and_still_requests
    ⟨1700000000000, "0.k3j9x2m1p", true, false, some false, false, some "123456789", 401⟩
    ⟨some "15551234567"⟩ "15551234567"
    [.connectionUpdate ⟨some "close", some ⟨some ⟨some ⟨some 408⟩⟩⟩⟩] [] []
    rfl (by decide) (Or.inl rfl) rfl rfl (by decide)

/-- C5 as stated is false: for phone number `15551234567` and raw code
`ABC123XYZ` the response carries the raw code unchanged, not `ABC-123-XYZ`. -/
theorem C5_counterexample :
    responses (run ⟨1700000000000, "0.k3j9x2m1p", true, false, some false, false,
        some "ABC123XYZ", 401⟩ ⟨some "15551234567"⟩ [] [] []) = [(200, "ABC123XYZ")] ∧
      responses (run ⟨1700000000000, "0.k3j9x2m1p", true, false, some false, false,
        some "ABC123XYZ", 401⟩ ⟨some "15551234567"⟩ [] [] []) ≠ [(200, "ABC-123-XYZ")] := by
  decide

/-- C5 (amended): for every nine-character raw code returned by
`requestPairingCode`, the code sent in the success response is the three
hyphen-joined blocks only when all nine characters are decimal digits;
otherwise it is the raw code unchanged. -/
theorem C5_nine_character_code_hyphenated_only_if_digits (env : Env) (req : Request)
    (phoneNumber code : String) (before during after : List Event)
    (hnum : req.number = some phoneNumber) (hne : phoneNumber ≠ "")
    (hdir : env.tempExists = true ∨ env.mkdirThrows = false)
    (hauth : env.authState = some false) (hsock : env.socketThrows = false)
    (hcode : env.pairingCode = some code) (hlen : code.length = 9) :
    responses (run env req before during after) =
      [(200, if code.data.all Char.isDigit then hyphenate code else code)] := by
  obtain ⟨setup, s, h1, -, -, -, hrun⟩ :=
    run_unregistered env req phoneNumber before during after hnum hne hdir hauth hsock
  rw [hrun]
  simp only [responses_append, responses_dispatchAll, h1, deferredCall, deferredSettle, hcode,
    formatCode_nine code hlen]
  simp [responses]

/-- Witness of C5 (amended): raw code `ABC123XYZ` for phone number `15551234567`. -/
theorem C5_nine_character_code_hyphenated_only_if_digits_witness :
    responses (run ⟨1700000000000, "0.k3j9x2m1p", true, false, some false, false,
        some "ABC123XYZ", 401⟩ ⟨some "15551234567"⟩ [] [] []) =
      [(200, if "ABC123XYZ".data.all Char.isDigit then hyphenate "ABC123XYZ" else "ABC123XYZ")] :=
  C5_nine_character_code_hyphenated_only_if_digits
    ⟨1700000000000, "0.k3j9x2m1p", true, false, some false, false, some "ABC123XYZ", 401⟩
    ⟨some "15551234567"⟩ "15551234567" "ABC123XYZ" [] [] [] rfl (by decide) (Or.inl rfl) rfl rfl
    rfl (by decide)

/-- C6: a request whose `number` is missing or empty gets status 400 and the
run has no other effect: no identifier is generated, no directory is looked up
or made, no auth state is opened and no socket is made. -/
theorem C6_missing_number_only_responds_400 (env : Env) (req : Request)
    (before during after : List Event)
    (h : req.number = none ∨ req.number = some "") :
    run env req before during after = [Effect.respond 400 "Phone number is required"] := by
  obtain ⟨number⟩ := req
  rcases h with h | h <;> simp only at h <;> subst h <;> simp [run, startPairing]

/-- Witness of C6: the empty phone number. -/
theorem C6_missing_number_only_responds_400_witness :
    run ⟨1700000000000, "0.k3j9x2m1p", false, false, some false, false, some "123456789", 401⟩
        ⟨some ""⟩ [] [] [] = [Effect.respond 400 "Phone number is required"] :=
  C6_missing_number_only_responds_400 _ ⟨some ""⟩ [] [] [] (Or.inr rfl)

/-- C7 as stated is false: two calls in the same millisecond whose random draws
differ but share their first six base-36 digits return the same identifier. -/
theorem C7_counterexample :
    (1700000000000, "0.k3j9x2m1p") ≠ (1700000000000, "0.k3j9x2zzz") ∧
      ¬ (generatedIds [(1700000000000, "0.k3j9x2m1p"), (1700000000000, "0.k3j9x2zzz")]).Nodup := by
  decide

/-- C7 (amended): the identifiers returned by a sequence of calls are pairwise
different exactly when the pairs (clock reading, characters 2 to 7 of the text
of the random draw) of the calls are pairwise different. -/
theorem C7_ids_distinct_iff_inputs_distinct (calls : List (Nat × String)) :
    (generatedIds calls).Nodup ↔ (calls.map fun c => (c.1, (c.2.data.drop 2).take 6)).Nodup := by
  have hinj : Function.Injective
      fun k : Nat × List Char => toString k.1 ++ "-" ++ String.mk k.2 := by
    rintro ⟨t1, x1⟩ ⟨t2, x2⟩ h
    have hd := congrArg String.data h
    simp only [String.data_append] at hd
    have h1 : (toString t1).data = Nat.toDigits 10 t1 := rfl
    have h2 : (toString t2).data = Nat.toDigits 10 t2 := rfl
    rw [h1, h2] at hd
    simp only [List.append_assoc, List.singleton_append] at hd
    obtain ⟨ha, hb⟩ := append_hyphen_inj _ _ _ _ (toDigits_no_hyphen t1) (toDigits_no_hyphen t2) hd
    rw [toDigits_injective ha, hb]
  have hmap : generatedIds calls =
      (calls.map fun c => (c.1, (c.2.data.drop 2).take 6)).map
        fun k : Nat × List Char => toString k.1 ++ "-" ++ String.mk k.2 := by
    simp [generatedIds, generateRandomId, substring_2_8, List.map_map, Function.comp_def]
  rw [hmap, List.nodup_map_iff hinj]

/-- C8: when `requestPairingCode` returns exactly nine decimal digits the route
responds with status 200 and the code `d1d2d3-d4d5d6-d7d8d9`. -/
theorem C8_nine_digits_formatted (env : Env) (req : Request) (phoneNumber code : String)
    (before during after : List Event) (d1 d2 d3 d4 d5 d6 d7 d8 d9 : Char)
    (hnum : req.number = some phoneNumber) (hne : phoneNumber ≠ "")
    (hdir : env.tempExists = true ∨ env.mkdirThrows = false)
    (hauth : env.authState = some false) (hsock : env.socketThrows = false)
    (hcode : env.pairingCode = some code)
    (hdata : code.data = [d1, d2, d3, d4, d5, d6, d7, d8, d9])
    (hdigits : ∀ d ∈ [d1, d2, d3, d4, d5, d6, d7, d8, d9], d.isDigit = true) :
    responses (run env req before during after) =
      [(200, String.mk [d1, d2, d3, '-', d4, d5, d6, '-', d7, d8, d9])] := by
  have hlen : code.length = 9 := by
    show code.data.length = 9
    rw [hdata]; rfl
  have hall : code.data.all Char.isDigit = true := by
    rw [hdata, List.all_eq_true]; exact hdigits
  obtain ⟨setup, s, h1, -, -, -, hrun⟩ :=
    run_unregistered env req phoneNumber before during after hnum hne hdir hauth hsock
  rw [hrun]
  simp only [responses_append, responses_dispatchAll, h1, deferredCall, deferredSettle, hcode,
    formatCode_nine code hlen, if_pos hall]
  simp [responses, hyphenate, hdata]

/-- Witness of C8: raw code `123456789`. -/
theorem C8_nine_digits_formatted_witness :
    responses (run ⟨1700000000000, "0.k3j9x2m1p", false, false, some false, false,
        some "123456789", 401⟩ ⟨some "15551234567"⟩ [] [.credsUpdate] []) =
      [(200, String.mk ['1', '2', '3', '-', '4', '5', '6', '-', '7', '8', '9'])] :=
  C8_nine_digits_formatted
    ⟨1700000000000, "0.k3j9x2m1p", false, false, some false, false, some "123456789", 401⟩
    ⟨some "15551234567"⟩ "15551234567" "123456789" [] [.credsUpdate] []
    '1' '2' '3' '4' '5' '6' '7' '8' '9' rfl (by decide) (Or.inr rfl) rfl rfl rfl rfl (by decide)

/-- C9: once a response has been sent during a run of the route, no later step
of that run sends another one, whatever events arrive and whenever. -/
theorem C9_no_second_response (env : Env) (req : Request) (before during after : List Event)
    (pre post : List Effect) (status : Nat) (code : String)
    (h : run env req before during after = pre ++ Effect.respond status code :: post) :
    ∀ (status2 : Nat) (code2 : String), Effect.respond status2 code2 ∉ post := by
  intro status2 code2 hmem
  have hlen := responses_run_length_le_one env req before during after
  rw [h, responses_append] at hlen
  have hpost : responses post ≠ [] := List.ne_nil_of_mem (mem_responses status2 code2 post hmem)
  have : 0 < (responses post).length := List.length_pos.mpr hpost
  simp only [responses, List.length_append, List.length_cons] at hlen
  omega

/-- Witness of C9: a logged-out close and a credential update after the code
was sent. -/
theorem C9_no_second_response_witness :
    run ⟨17, "0.k3j9x2m1p", true, false, some false, false, some "123456789", 401⟩
        ⟨some "15551234567"⟩ [] []
        [.credsUpdate, .connectionUpdate ⟨some "close", some ⟨some ⟨some ⟨some 401⟩⟩⟩⟩] =
      [Effect.generateRandomId, Effect.existsSync "./temp",
        Effect.useMultiFileAuthState "./temp/17-k3j9x2", Effect.makeWASocket,
        Effect.on "connection.update", Effect.on "creds.update", Effect.setTimeout 3000,
        Effect.requestPairingCode "15551234567"] ++
        Effect.respond 200 "123-456-789" :: [Effect.saveCreds, Effect.rm "./temp/17-k3j9x2"] ∧
      ∀ (status2 : Nat) (code2 : String),
        Effect.respond status2 code2 ∉ [Effect.saveCreds, Effect.rm "./temp/17-k3j9x2"] :=
  ⟨by decide, C9_no_second_response
    ⟨17, "0.k3j9x2m1p", true, false, some false, false, some "123456789", 401⟩
    ⟨some "15551234567"⟩ [] []
    [.credsUpdate, .connectionUpdate ⟨some "close", some ⟨some ⟨some ⟨some 401⟩⟩⟩⟩]
    [Effect.generateRandomId, Effect.existsSync "./temp",
      Effect.useMultiFileAuthState "./temp/17-k3j9x2", Effect.makeWASocket,
      Effect.on "connection.update", Effect.on "creds.update", Effect.setTimeout 3000,
      Effect.requestPairingCode "15551234567"]
    [Effect.saveCreds, Effect.rm "./temp/17-k3j9x2"] 200 "123-456-789" (by decide)⟩

/-- C10 as stated is false: a close update without `lastDisconnect` makes the
subscriber throw a `TypeError`. -/
theorem C10_counterexample :
    ¬ ∃ effects, onConnectionUpdate 401 "./temp/17-k3j9x2" ⟨some "close", none⟩ = .ok effects := by
  rintro ⟨effects, h⟩
  simp [onConnectionUpdate] at h

/-- C10 (amended): for every `connection.update` event that is not a close, or
that carries a `lastDisconnect` object (with its `error`, `output` and
`statusCode` each present or absent), the subscriber returns without throwing. -/
theorem C10_handler_returns_when_lastDisconnect_present (loggedOut : Int) (sessionFile : String)
    (update : ConnectionUpdate)
    (h : update.connection ≠ some "close" ∨ update.lastDisconnect ≠ none) :
    ∃ effects, onConnectionUpdate loggedOut sessionFile update = .ok effects := by
  obtain ⟨connection, lastDisconnect⟩ := update
  simp only [onConnectionUpdate]
  by_cases hc : connection = some "close"
  · cases lastDisconnect with
    | none => simp [hc] at h
    | some ld => by_cases hs : statusCodeOf ld = some loggedOut <;> simp [hc, hs]
  · simp [hc]

/-- Witness of C10 (amended): a close whose `lastDisconnect` has no `error`. -/
theorem C10_handler_returns_when_lastDisconnect_present_witness :
    ((some "close" : Option String) ≠ some "close" ∨ (some ⟨none⟩ : Option LastDisconnect) ≠ none) ∧
      ∃ effects, onConnectionUpdate 401 "./temp/17-k3j9x2" ⟨some "close", some ⟨none⟩⟩ =
        .ok effects :=
  ⟨Or.inr (by decide), C10_handler_returns_when_lastDisconnect_present 401 "./temp/17-k3j9x2"
    ⟨some "close", some ⟨none⟩⟩ (Or.inr (by decide))⟩

end Itxxwasi
